import Mathlib

/-!
Verification of the OAuth2 token cache and batch-analyze loop of
`src/server.js` (eBay API backend server).

The embedding models the module-level mutable variables `cachedToken` and
`tokenExpiry`, the function `getOAuthToken` (lines 46-83), the authentication
request it builds (lines 55-70), and the `/api/batch-analyze` handler loop
(lines 316-394).  Instants are epoch milliseconds as returned by `Date.now()`,
modelled as `Int`.  JavaScript values that can become `NaN` or `undefined`
through the untyped paths of the code are modelled explicitly (`JsNum`,
`Option String`), so that the truthiness test on line 47 is reproduced
exactly.
-/

namespace EbayBackend

/-- A JavaScript number as it can be stored in `tokenExpiry`: an exact integer
(epoch milliseconds; all values arising here are exactly representable
doubles), or `NaN`, which arises when `response.data.expires_in` is absent
(`(undefined - 300) * 1000` is `NaN`). -/
inductive JsNum where
  | num (n : Int)
  | nan
deriving DecidableEq, Repr

/-- JavaScript truthiness of a number: `0` and `NaN` are falsy, every other
number is truthy. -/
def JsNum.truthy : JsNum → Bool
  | .num n => n != 0
  | .nan => false

/-- The JavaScript comparison `now < e`: any comparison with `NaN` is false. -/
def JsNum.isAfter (now : Int) : JsNum → Bool
  | .num n => decide (now < n)
  | .nan => false

/-- The two module-level mutable variables of `server.js` (lines 43-44):
`cachedToken` (initially `null`, modelled `none`; a JS string otherwise) and
`tokenExpiry` (initially `null`, modelled `none`; a JS number otherwise).
`none` covers both `null` and `undefined`, which behave identically in every
expression of this program (both falsy). -/
structure CacheState where
  cachedToken : Option String
  tokenExpiry : Option JsNum
deriving DecidableEq, Repr

/-- JavaScript truthiness of `cachedToken`: `null`/`undefined` and the empty
string are falsy; every non-empty string is truthy. -/
def strTruthy : Option String → Bool
  | some s => s != ""
  | none => false

/-- JavaScript truthiness of `tokenExpiry`. -/
def expiryTruthy : Option JsNum → Bool
  | some j => j.truthy
  | none => false

/-- The comparison `Date.now() < tokenExpiry` on line 47 (false when
`tokenExpiry` is `null`, though in the source the `&&` chain short-circuits
before that case). -/
def expiryAfter (now : Int) : Option JsNum → Bool
  | some j => j.isAfter now
  | none => false

/-- Line 47: `cachedToken && tokenExpiry && Date.now() < tokenExpiry`. -/
def cacheHit (now : Int) (st : CacheState) : Bool :=
  strTruthy st.cachedToken && expiryTruthy st.tokenExpiry &&
    expiryAfter now st.tokenExpiry

/-- Outcome of the awaited `axios.post` to the token endpoint, as observed
by the code: `ok` is a 2xx response whose JSON body may or may not contain
the `access_token` and `expires_in` fields (axios does not validate the
body); `err` is a rejected promise (network error or non-2xx status), with
`payload` the value of `error.response?.data` when present. -/
inductive FetchOutcome where
  | ok (access_token : Option String) (expires_in : Option Int)
  | err (payload : Option String)
deriving DecidableEq, Repr

/-- How a call to `getOAuthToken` ends: a normal return of the (possibly
`undefined`) value of `cachedToken`, or a thrown `Error` with the given
message. -/
inductive TokenResult where
  | ret (tok : Option String)
  | thrown (message : String)
deriving DecidableEq, Repr

/-- The observable effect of one `getOAuthToken` invocation: its result, the
cache state it leaves behind, and whether it issued an outbound
authentication request. -/
structure StepResult where
  result : TokenResult
  state : CacheState
  fetched : Bool
deriving DecidableEq, Repr

/-- Line 74: `tokenExpiry = Date.now() + ((response.data.expires_in - 300) * 1000)`.
A missing `expires_in` propagates to `NaN`. -/
def newExpiry (now : Int) : Option Int → JsNum
  | some e => .num (now + (e - 300) * 1000)
  | none => .nan

/-- Lines 73-81 restricted to the miss path: on a 2xx response the two cache
fields are overwritten from the body and the (possibly `undefined`) token is
returned; on a rejected promise the cache is left untouched and
`new Error('Failed to get eBay OAuth token')` is thrown (the upstream payload
is only logged on line 80, never attached to the thrown error). -/
def resolveMiss (fetch : FetchOutcome) (now : Int) (st : CacheState) :
    TokenResult × CacheState :=
  match fetch with
  | .ok tok exp => (.ret tok, ⟨tok, some (newExpiry now exp)⟩)
  | .err _ => (.thrown "Failed to get eBay OAuth token", st)

/-- `getOAuthToken` (lines 46-83).  `fetch` is the outcome the upstream would
give if the function reaches the `axios.post`; `now` is `Date.now()` for this
invocation; `st` is the cache state on entry. -/
def getOAuthToken (fetch : FetchOutcome) (now : Int) (st : CacheState) :
    StepResult :=
  if cacheHit now st then
    ⟨.ret st.cachedToken, st, false⟩
  else
    let r := resolveMiss fetch now st
    ⟨r.1, r.2, true⟩

/-- UTF-8 encoding of one character, as `Buffer.from(string)` performs it
(byte values as `Nat`). -/
def utf8Bytes (c : Char) : List Nat :=
  let n := c.toNat
  if n < 128 then [n]
  else if n < 2048 then [192 + n / 64, 128 + n % 64]
  else if n < 65536 then [224 + n / 4096, 128 + n / 64 % 64, 128 + n % 64]
  else [240 + n / 262144, 128 + n / 4096 % 64, 128 + n / 64 % 64, 128 + n % 64]

/-- The UTF-8 byte sequence of a string. -/
def strBytes (s : String) : List Nat :=
  (s.data.map utf8Bytes).flatten

/-- The standard base64 alphabet. -/
def base64Alphabet : List Char :=
  String.data "ABCDEFGHIJKLMNOPQRSTUVWXYZabcdefghijklmnopqrstuvwxyz0123456789+/"

/-- Character `n` (0-63) of the base64 alphabet. -/
def b64c (n : Nat) : Char :=
  base64Alphabet.getD n '?'

/-- Standard base64 of a byte sequence, with `=` padding, as
`Buffer.toString('base64')` produces it. -/
def base64Encode : List Nat → String
  | [] => ""
  | [a] => String.mk [b64c (a / 4), b64c (a % 4 * 16)] ++ "=="
  | [a, b] => String.mk [b64c (a / 4), b64c (a % 4 * 16 + b / 16), b64c (b % 16 * 4)] ++ "="
  | a :: b :: c :: rest =>
      String.mk [b64c (a / 4), b64c (a % 4 * 16 + b / 16),
        b64c (b % 16 * 4 + c / 64), b64c (c % 64)] ++ base64Encode rest

/-- `Buffer.from(s).toString('base64')`. -/
def base64OfString (s : String) : String :=
  base64Encode (strBytes s)

/-- The authentication request built on lines 55-70. -/
structure OAuthRequest where
  url : String
  contentType : String
  authorization : String
  body : String
deriving DecidableEq, Repr

/-- The request `getOAuthToken` sends on its fetch path (lines 55-70):
`credentials = Buffer.from(APP_ID + ':' + CERT_ID).toString('base64')`,
header `Authorization: Basic <credentials>`, and the `qs.stringify` of the
grant-type/scope object as the form-encoded body. -/
def oauthTokenRequest (appId certId : String) : OAuthRequest :=
  { url := "https://api.ebay.com/identity/v1/oauth2/token"
    contentType := "application/x-www-form-urlencoded"
    authorization := "Basic " ++ base64OfString (appId ++ ":" ++ certId)
    body := "grant_type=client_credentials&scope=https%3A%2F%2Fapi.ebay.com%2Foauth%2Fapi_scope" }

/-- The result a miss-path call observes from its own awaited fetch,
independent of interleaving: line 73 overwrites `cachedToken` with the body
field and line 77 returns it; a rejected promise reaches the fixed `throw`. -/
def ownResult : FetchOutcome → TokenResult
  | .ok tok _ => .ret tok
  | .err _ => .thrown "Failed to get eBay OAuth token"

/-- Applies the resolutions of a list of in-flight fetches to the shared
cache state in completion order, collecting each call's result. -/
def resolveAll (now : Int) : List FetchOutcome → CacheState →
    List TokenResult × CacheState
  | [], st => ([], st)
  | f :: fs, st =>
      let r := resolveMiss f now st
      let rest := resolveAll now fs r.2
      (r.1 :: rest.1, rest.2)

/-- N calls to `getOAuthToken` issued simultaneously against the shared cache
state `st0`, under the Node.js event-loop semantics of the source: each call
runs synchronously up to its first `await`, so every call evaluates the
line-47 check against `st0` before any fetch response arrives.  If the check
hits, every call returns the cached token and no fetch is issued; otherwise
every call issues its own fetch (`fetches` lists their outcomes), and the
responses are applied to the shared state in completion order.  Returns the
per-call results, the final state, and the number of outbound authentication
requests issued. -/
def runSimultaneous (fetches : List FetchOutcome) (now : Int)
    (st0 : CacheState) : List TokenResult × CacheState × Nat :=
  if cacheHit now st0 then
    (fetches.map fun _ => TokenResult.ret st0.cachedToken, st0, 0)
  else
    let r := resolveAll now fetches st0
    (r.1, r.2, fetches.length)

/-- Outcome of the per-item `axios.post` to the content-analysis upstream in
the `/api/batch-analyze` loop: a 2xx response with the generated text, or a
rejected promise with an error message. -/
inductive AnalyzeOutcome where
  | ok (text : String)
  | fail (message : String)
deriving DecidableEq, Repr

/-- One element pushed onto `results` in the `/api/batch-analyze` loop
(lines 366-370 on success, 376-381 on failure). -/
structure BatchItemResult where
  index : Nat
  description : Option String
  success : Bool
  errorMessage : Option String
deriving DecidableEq, Repr

/-- One iteration of the batch loop: the try/catch around the per-item fetch
(lines 332-382).  Success pushes the trimmed text with `success: true`;
failure pushes `description: null`, `success: false` and the error message —
it does not abort the loop. -/
def batchStep (i : Nat) : AnalyzeOutcome → BatchItemResult
  | .ok text => ⟨i, some text.trim, true, none⟩
  | .fail msg => ⟨i, none, false, some msg⟩

/-- The sequential loop of `/api/batch-analyze` (lines 329-383): the i-th
input image's upstream outcome is `outcomes[i]`. -/
def batchAnalyze (outcomes : List AnalyzeOutcome) : List BatchItemResult :=
  outcomes.enum.map fun p => batchStep p.1 p.2

/-- The `/api/batch-analyze` handler (lines 316-394): an absent or empty
`images` array is rejected with a 400 error before the loop runs; otherwise
the loop's results are returned. -/
def batchAnalyzeHandler (outcomes : List AnalyzeOutcome) :
    Except String (List BatchItemResult) :=
  if outcomes.isEmpty then .error "Images array is required"
  else .ok (batchAnalyze outcomes)

/-- Formalizes the spec's accuracy assumption for claim C5 ("upstream-issued
lifetimes are accurate and clocks are synchronized"): a token issued by the
upstream at instant `t0` (epoch ms) with reported lifetime `lifetime`
seconds is accepted by the upstream exactly until `t0 + 1000 * lifetime`. -/
def upstreamValidUntil (t0 lifetime : Int) : Int :=
  t0 + 1000 * lifetime

/-! Helper lemmas shared by the claim theorems. -/

theorem getOAuthToken_of_hit {now : Int} {st : CacheState}
    (fetch : FetchOutcome) (h : cacheHit now st = true) :
    getOAuthToken fetch now st = ⟨.ret st.cachedToken, st, false⟩ := by
  simp [getOAuthToken, h]

theorem getOAuthToken_of_miss {now : Int} {st : CacheState}
    (fetch : FetchOutcome) (h : cacheHit now st = false) :
    getOAuthToken fetch now st
      = ⟨(resolveMiss fetch now st).1, (resolveMiss fetch now st).2, true⟩ := by
  simp [getOAuthToken, h]

theorem cacheHit_true_iff (now : Int) (st : CacheState) :
    cacheHit now st = true ↔
      strTruthy st.cachedToken = true ∧ expiryTruthy st.tokenExpiry = true ∧
      expiryAfter now st.tokenExpiry = true := by
  simp [cacheHit, and_assoc]

theorem cacheHit_of_fields {now e : Int} {st : CacheState} {t : String}
    (htok : st.cachedToken = some t) (hne : t ≠ "")
    (hexp : st.tokenExpiry = some (JsNum.num e)) (hez : e ≠ 0) (hlt : now < e) :
    cacheHit now st = true := by
  simp [cacheHit, strTruthy, expiryTruthy, expiryAfter, JsNum.truthy,
    JsNum.isAfter, htok, hexp, hne, hez, hlt]

theorem cacheHit_false_of_not_after {now : Int} {st : CacheState}
    (h : expiryAfter now st.tokenExpiry = false) :
    cacheHit now st = false := by
  simp [cacheHit, h]

theorem resolveAll_results (now : Int) (fs : List FetchOutcome)
    (st : CacheState) : (resolveAll now fs st).1 = fs.map ownResult := by
  induction fs generalizing st with
  | nil => rfl
  | cons f fs ih =>
      cases f with
      | ok tok exp => simp [resolveAll, resolveMiss, ownResult, ih]
      | err p => simp [resolveAll, resolveMiss, ownResult, ih]

/-! The claim theorems. -/

/-- C1: in every state where a cached token exists (a non-empty token string,
which is what the line-47 truthiness test means by "exists") and the current
instant — a nonnegative epoch-millisecond value, as `Date.now()` always
returns — is strictly before the stored expiry, `getOAuthToken` returns the
cached token unchanged, issues no outbound authentication request, and leaves
both cache fields exactly as they were. -/
theorem c1_cache_hit_no_fetch (fetch : FetchOutcome) (now e : Int)
    (t : String) (st : CacheState)
    (htok : st.cachedToken = some t) (hne : t ≠ "")
    (hexp : st.tokenExpiry = some (JsNum.num e))
    (hnow : 0 ≤ now) (hlt : now < e) :
    (getOAuthToken fetch now st).result = TokenResult.ret (some t) ∧
    (getOAuthToken fetch now st).state = st ∧
    (getOAuthToken fetch now st).fetched = false := by
  have hhit : cacheHit now st = true :=
    cacheHit_of_fields htok hne hexp (by omega) hlt
  rw [getOAuthToken_of_hit fetch hhit]
  exact ⟨by rw [htok], rfl, rfl⟩

/-- Witness for C1 at a concrete state. -/
theorem c1_witness :
    (0 : Int) ≤ 1000 ∧ (1000 : Int) < 2000 ∧
    ((getOAuthToken (FetchOutcome.err none) 1000
        ⟨some "tokA", some (JsNum.num 2000)⟩).result
      = TokenResult.ret (some "tokA") ∧
    (getOAuthToken (FetchOutcome.err none) 1000
        ⟨some "tokA", some (JsNum.num 2000)⟩).state
      = ⟨some "tokA", some (JsNum.num 2000)⟩ ∧
    (getOAuthToken (FetchOutcome.err none) 1000
        ⟨some "tokA", some (JsNum.num 2000)⟩).fetched = false) :=
  ⟨by decide, by decide,
    c1_cache_hit_no_fetch (FetchOutcome.err none) 1000 2000 "tokA"
      ⟨some "tokA", some (JsNum.num 2000)⟩ rfl (by decide) rfl
      (by decide) (by decide)⟩


/-- C2 counterexample: the claim quantifies over every successful fetch, but a
successful fetch may return the empty string as `access_token` (together with
`expires_in = 3600`); the expiry `now + 3300` s is stored, yet the call at
`now + 3299` s is not a cache hit — it issues a new outbound fetch, because
the line-47 truthiness test rejects the empty cached token. -/
theorem c2_counterexample :
    (getOAuthToken (FetchOutcome.ok (some "") (some 3600)) 0 ⟨none, none⟩).state
      = ⟨some "", some (JsNum.num 3300000)⟩ ∧
    (getOAuthToken (FetchOutcome.err none) 3299000
        (getOAuthToken (FetchOutcome.ok (some "") (some 3600)) 0
          ⟨none, none⟩).state).fetched = true := by
  decide

/-- C2 (amended): after a successful fetch at a nonnegative instant `now`
that returned a NON-EMPTY `access_token` and lifetime `expires_in = L`
seconds, the stored expiry is `now + (L - 300)` seconds (in ms:
`now + (L-300)*1000`); for `L = 3600` a `getOAuthToken` call at
`now + 3299` s is a cache hit returning the same token with no fetch, and a
call at `now + 3301` s issues a new fetch. -/
theorem c2_expiry_margin (now L : Int) (tok : String) (st0 : CacheState)
    (f1 f2 : FetchOutcome)
    (hmiss : cacheHit now st0 = false) (hne : tok ≠ "") (hnow : 0 ≤ now) :
    (getOAuthToken (FetchOutcome.ok (some tok) (some L)) now st0).state
      = ⟨some tok, some (JsNum.num (now + (L - 300) * 1000))⟩ ∧
    (L = 3600 →
      (getOAuthToken f1 (now + 3299 * 1000)
          (getOAuthToken (FetchOutcome.ok (some tok) (some L)) now st0).state).result
        = TokenResult.ret (some tok) ∧
      (getOAuthToken f1 (now + 3299 * 1000)
          (getOAuthToken (FetchOutcome.ok (some tok) (some L)) now st0).state).fetched
        = false ∧
      (getOAuthToken f2 (now + 3301 * 1000)
          (getOAuthToken (FetchOutcome.ok (some tok) (some L)) now st0).state).fetched
        = true) := by
  have hst : (getOAuthToken (FetchOutcome.ok (some tok) (some L)) now st0).state
      = ⟨some tok, some (JsNum.num (now + (L - 300) * 1000))⟩ := by
    rw [getOAuthToken_of_miss _ hmiss]; rfl
  refine ⟨hst, fun hL => ?_⟩
  subst hL
  rw [hst]
  have hhit : cacheHit (now + 3299 * 1000)
      (⟨some tok, some (JsNum.num (now + (3600 - 300) * 1000))⟩ : CacheState) = true :=
    cacheHit_of_fields rfl hne rfl (by omega) (by omega)
  have hmiss2 : cacheHit (now + 3301 * 1000)
      (⟨some tok, some (JsNum.num (now + (3600 - 300) * 1000))⟩ : CacheState) = false :=
    cacheHit_false_of_not_after (by
      simp [expiryAfter, JsNum.isAfter])
  rw [getOAuthToken_of_hit f1 hhit, getOAuthToken_of_miss f2 hmiss2]
  exact ⟨rfl, rfl, rfl⟩

/-- Witness for C2 (amended) at `now = 0`, token `"tokA"`, `L = 3600`. -/
theorem c2_witness :
    ((getOAuthToken (FetchOutcome.ok (some "tokA") (some 3600)) 0 ⟨none, none⟩).state
      = ⟨some "tokA", some (JsNum.num (0 + (3600 - 300) * 1000))⟩ ∧
    ((3600 : Int) = 3600 →
      (getOAuthToken (FetchOutcome.err none) (0 + 3299 * 1000)
          (getOAuthToken (FetchOutcome.ok (some "tokA") (some 3600)) 0
            ⟨none, none⟩).state).result = TokenResult.ret (some "tokA") ∧
      (getOAuthToken (FetchOutcome.err none) (0 + 3299 * 1000)
          (getOAuthToken (FetchOutcome.ok (some "tokA") (some 3600)) 0
            ⟨none, none⟩).state).fetched = false ∧
      (getOAuthToken (FetchOutcome.err none) (0 + 3301 * 1000)
          (getOAuthToken (FetchOutcome.ok (some "tokA") (some 3600)) 0
            ⟨none, none⟩).state).fetched = true)) :=
  c2_expiry_margin 0 3600 "tokA" ⟨none, none⟩ (FetchOutcome.err none)
    (FetchOutcome.err none) (by decide) (by decide) (by decide)

/-- C3: whatever the prior cache state, if `getOAuthToken` reaches the fetch
and the fetch fails, the call throws, both cache fields keep exactly their
prior values, one fetch was attempted, and any subsequent call that still
sees no valid cache entry attempts another fetch rather than being
short-circuited by the earlier failure. -/
theorem c3_failure_preserves_cache (p : Option String) (now : Int)
    (st : CacheState) (hmiss : cacheHit now st = false) :
    (getOAuthToken (FetchOutcome.err p) now st).state = st ∧
    (getOAuthToken (FetchOutcome.err p) now st).result
      = TokenResult.thrown "Failed to get eBay OAuth token" ∧
    (getOAuthToken (FetchOutcome.err p) now st).fetched = true ∧
    (∀ (n : Int) (f : FetchOutcome), cacheHit n st = false →
      (getOAuthToken f n st).fetched = true) := by
  rw [getOAuthToken_of_miss _ hmiss]
  refine ⟨rfl, rfl, rfl, fun n f h => ?_⟩
  rw [getOAuthToken_of_miss f h]

/-- Witness for C3: a fetch failure over an expired cache entry. -/
theorem c3_witness :
    (getOAuthToken (FetchOutcome.err (some "invalid_client")) 5000
        ⟨some "old", some (JsNum.num 4000)⟩).state
      = ⟨some "old", some (JsNum.num 4000)⟩ ∧
    (getOAuthToken (FetchOutcome.err (some "invalid_client")) 5000
        ⟨some "old", some (JsNum.num 4000)⟩).result
      = TokenResult.thrown "Failed to get eBay OAuth token" ∧
    (getOAuthToken (FetchOutcome.err (some "invalid_client")) 5000
        ⟨some "old", some (JsNum.num 4000)⟩).fetched = true ∧
    (∀ (n : Int) (f : FetchOutcome),
      cacheHit n (⟨some "old", some (JsNum.num 4000)⟩ : CacheState) = false →
      (getOAuthToken f n (⟨some "old", some (JsNum.num 4000)⟩ : CacheState)).fetched
        = true) :=
  c3_failure_preserves_cache (some "invalid_client") 5000
    ⟨some "old", some (JsNum.num 4000)⟩ (by decide)

/-- C4 counterexample: on a 2xx response whose body is missing both
`access_token` and `expires_in`, the function does NOT throw — it stores
`undefined` as the token and `NaN` as the expiry and returns `undefined` —
contradicting the claim that a malformed 2xx body raises the error. -/
theorem c4_counterexample :
    (getOAuthToken (FetchOutcome.ok none none) 0 ⟨none, none⟩).result
      = TokenResult.ret none ∧
    (∀ m, (getOAuthToken (FetchOutcome.ok none none) 0 ⟨none, none⟩).result
      ≠ TokenResult.thrown m) ∧
    (getOAuthToken (FetchOutcome.ok none none) 0 ⟨none, none⟩).state
      = ⟨none, some JsNum.nan⟩ := by
  refine ⟨by decide, fun m h => ?_, by decide⟩
  rw [getOAuthToken_of_miss _ (by decide)] at h
  simp [resolveMiss] at h

/-- C4 (amended): on the fetch path, `getOAuthToken` throws exactly when the
HTTP request itself fails (upstream unreachable or non-2xx response), and
every thrown error carries the fixed message
`"Failed to get eBay OAuth token"` — the upstream's error payload is logged
but not attached.  A 2xx response missing `access_token` or `expires_in`
does not raise: its (missing) fields are cached and returned. -/
theorem c4_error_conditions (fetch : FetchOutcome) (now : Int)
    (st : CacheState) (hmiss : cacheHit now st = false) :
    ((∃ p, fetch = FetchOutcome.err p) ↔
      ∃ m, (getOAuthToken fetch now st).result = TokenResult.thrown m) ∧
    (∀ m, (getOAuthToken fetch now st).result = TokenResult.thrown m →
      m = "Failed to get eBay OAuth token") := by
  rw [getOAuthToken_of_miss _ hmiss]
  cases fetch with
  | ok tok exp =>
      refine ⟨⟨fun h => ?_, fun h => ?_⟩, fun m hm => ?_⟩
      · obtain ⟨p, hp⟩ := h; exact absurd hp (by simp)
      · obtain ⟨m, hm⟩ := h; exact absurd hm (by simp [resolveMiss])
      · exact absurd hm (by simp [resolveMiss])
  | err p =>
      refine ⟨⟨fun _ => ⟨"Failed to get eBay OAuth token", rfl⟩,
        fun _ => ⟨p, rfl⟩⟩, fun m hm => ?_⟩
      simpa [resolveMiss] using hm.symm

/-- Witness for C4 (amended) at a concrete failed fetch over an empty cache. -/
theorem c4_witness :
    ((∃ p, FetchOutcome.err (some "bad") = FetchOutcome.err p) ↔
      ∃ m, (getOAuthToken (FetchOutcome.err (some "bad")) 0
        ⟨none, none⟩).result = TokenResult.thrown m) ∧
    (∀ m, (getOAuthToken (FetchOutcome.err (some "bad")) 0
        ⟨none, none⟩).result = TokenResult.thrown m →
      m = "Failed to get eBay OAuth token") :=
  c4_error_conditions (FetchOutcome.err (some "bad")) 0 ⟨none, none⟩ (by decide)

/-- C5 counterexample: the upstream may report a lifetime below 300 seconds
(here `expires_in = 0`); the freshly fetched token is still returned, yet
under the spec's own accuracy assumption it stops being valid upstream
immediately — far less than 300 seconds after the moment of return. -/
theorem c5_counterexample :
    (getOAuthToken (FetchOutcome.ok (some "tokA") (some 0)) 0
        ⟨none, none⟩).result = TokenResult.ret (some "tokA") ∧
    upstreamValidUntil 0 0 < 0 + 300000 := by
  decide

/-- C5 (amended): provided the upstream-issued lifetime `L` is at least 300
seconds (and lifetimes are accurate and clocks synchronized, formalized by
`upstreamValidUntil`), every successful return of `getOAuthToken` is valid
upstream for at least 300 seconds from the moment of return: the fresh
return at fetch time `t0`, and any later cache-served return at time `now`. -/
theorem c5_result_guarantee (t0 now L : Int) (tok : String)
    (st0 : CacheState) (f : FetchOutcome)
    (hmiss : cacheHit t0 st0 = false) (hL : 300 ≤ L) :
    (getOAuthToken (FetchOutcome.ok (some tok) (some L)) t0 st0).result
      = TokenResult.ret (some tok) ∧
    t0 + 300000 ≤ upstreamValidUntil t0 L ∧
    (cacheHit now
        (getOAuthToken (FetchOutcome.ok (some tok) (some L)) t0 st0).state
        = true →
      (getOAuthToken f now
          (getOAuthToken (FetchOutcome.ok (some tok) (some L)) t0 st0).state).result
        = TokenResult.ret (some tok) ∧
      now + 300000 ≤ upstreamValidUntil t0 L) := by
  have hst : (getOAuthToken (FetchOutcome.ok (some tok) (some L)) t0 st0).state
      = ⟨some tok, some (JsNum.num (t0 + (L - 300) * 1000))⟩ := by
    rw [getOAuthToken_of_miss _ hmiss]; rfl
  refine ⟨by rw [getOAuthToken_of_miss _ hmiss]; rfl,
    by unfold upstreamValidUntil; omega, fun hhit => ?_⟩
  rw [hst] at hhit
  have hlt : now < t0 + (L - 300) * 1000 := by
    have h3 := (cacheHit_true_iff now _).mp hhit
    simpa [expiryAfter, JsNum.isAfter] using h3.2.2
  rw [hst, getOAuthToken_of_hit f hhit]
  exact ⟨rfl, by unfold upstreamValidUntil; omega⟩

/-- Witness for C5 (amended): fetch at `t0 = 0` with lifetime 3600 s, cache
hit at `now = 1000` ms. -/
theorem c5_witness :
    ((getOAuthToken (FetchOutcome.ok (some "tokA") (some 3600)) 0
        ⟨none, none⟩).result = TokenResult.ret (some "tokA") ∧
    (0 : Int) + 300000 ≤ upstreamValidUntil 0 3600 ∧
    (cacheHit 1000
        (getOAuthToken (FetchOutcome.ok (some "tokA") (some 3600)) 0
          ⟨none, none⟩).state = true →
      (getOAuthToken (FetchOutcome.err none) 1000
          (getOAuthToken (FetchOutcome.ok (some "tokA") (some 3600)) 0
            ⟨none, none⟩).state).result = TokenResult.ret (some "tokA") ∧
      (1000 : Int) + 300000 ≤ upstreamValidUntil 0 3600)) :=
  c5_result_guarantee 0 1000 3600 "tokA" ⟨none, none⟩ (FetchOutcome.err none)
    (by decide) (by decide)

/-- C7 counterexample: two calls issued simultaneously over the empty cache
issue two outbound authentication requests, not one, and resolve to
different token values (each call returns the token of its own fetch). -/
theorem c7_counterexample :
    (runSimultaneous [FetchOutcome.ok (some "tokA") (some 7200),
        FetchOutcome.ok (some "tokB") (some 7200)] 0 ⟨none, none⟩).2.2 = 2 ∧
    (runSimultaneous [FetchOutcome.ok (some "tokA") (some 7200),
        FetchOutcome.ok (some "tokB") (some 7200)] 0 ⟨none, none⟩).1
      = [TokenResult.ret (some "tokA"), TokenResult.ret (some "tokB")] ∧
    TokenResult.ret (some "tokA") ≠ TokenResult.ret (some "tokB") := by
  decide

/-- C7 (amended): the source has no single-flight mechanism.  N calls issued
simultaneously while the cache holds no valid entry each observe a miss and
each issues its own authentication request — N upstream calls in total — and
each call resolves to the result of its own fetch, not to a shared value. -/
theorem c7_no_single_flight (fetches : List FetchOutcome) (now : Int)
    (st0 : CacheState) (hmiss : cacheHit now st0 = false) :
    (runSimultaneous fetches now st0).2.2 = fetches.length ∧
    (runSimultaneous fetches now st0).1 = fetches.map ownResult := by
  unfold runSimultaneous
  rw [if_neg (by simp [hmiss])]
  exact ⟨rfl, resolveAll_results now fetches st0⟩

/-- Witness for C7 (amended): three simultaneous calls over the empty cache. -/
theorem c7_witness :
    (runSimultaneous [FetchOutcome.ok (some "a") (some 7200),
        FetchOutcome.err none, FetchOutcome.ok (some "b") (some 7200)] 0
        ⟨none, none⟩).2.2
      = ([FetchOutcome.ok (some "a") (some 7200), FetchOutcome.err none,
          FetchOutcome.ok (some "b") (some 7200)] : List FetchOutcome).length ∧
    (runSimultaneous [FetchOutcome.ok (some "a") (some 7200),
        FetchOutcome.err none, FetchOutcome.ok (some "b") (some 7200)] 0
        ⟨none, none⟩).1
      = ([FetchOutcome.ok (some "a") (some 7200), FetchOutcome.err none,
          FetchOutcome.ok (some "b") (some 7200)] : List FetchOutcome).map ownResult :=
  c7_no_single_flight [FetchOutcome.ok (some "a") (some 7200),
    FetchOutcome.err none, FetchOutcome.ok (some "b") (some 7200)] 0
    ⟨none, none⟩ (by decide)

/-- C6: for every identity/secret pair, the Authorization header of the
request built on the fetch path equals `"Basic "` followed by the base64
encoding of the colon-joined pair; in particular for identity `"id1"` and
secret `"secret1"` it equals `"Basic aWQxOnNlY3JldDE="`, the literal base64
of `"id1:secret1"`. -/
theorem c6_basic_auth_header (appId certId : String) :
    (oauthTokenRequest appId certId).authorization
      = "Basic " ++ base64OfString (appId ++ ":" ++ certId) ∧
    (oauthTokenRequest "id1" "secret1").authorization
      = "Basic aWQxOnNlY3JldDE=" :=
  ⟨rfl, by decide⟩

/-- C8: for every non-empty batch, the handler runs the loop and produces
exactly one tagged result per input, in input order: position `i` holds
`batchStep i` of the i-th item's upstream outcome — success with the trimmed
description, or failure with the reason — so no item's failure aborts the
processing of the remaining items. -/
theorem c8_batch_per_item (outcomes : List AnalyzeOutcome)
    (hne : outcomes ≠ []) :
    batchAnalyzeHandler outcomes = Except.ok (batchAnalyze outcomes) ∧
    (batchAnalyze outcomes).length = outcomes.length ∧
    ∀ (i : Nat) (h1 : i < (batchAnalyze outcomes).length)
      (h2 : i < outcomes.length),
      (batchAnalyze outcomes).get ⟨i, h1⟩ = batchStep i (outcomes.get ⟨i, h2⟩) := by
  refine ⟨?_, by simp [batchAnalyze], fun i h1 h2 => ?_⟩
  · unfold batchAnalyzeHandler
    rw [if_neg (by simpa [List.isEmpty_iff] using hne)]
  · simp [batchAnalyze, List.get_eq_getElem, List.getElem_map, List.getElem_enum]

/-- Witness for C8: a two-item batch whose second item fails. -/
theorem c8_witness :
    (batchAnalyzeHandler [AnalyzeOutcome.ok " Charizard Base Set ",
        AnalyzeOutcome.fail "Request failed with status code 429"]
      = Except.ok (batchAnalyze [AnalyzeOutcome.ok " Charizard Base Set ",
          AnalyzeOutcome.fail "Request failed with status code 429"]) ∧
    (batchAnalyze [AnalyzeOutcome.ok " Charizard Base Set ",
        AnalyzeOutcome.fail "Request failed with status code 429"]).length
      = ([AnalyzeOutcome.ok " Charizard Base Set ",
          AnalyzeOutcome.fail "Request failed with status code 429"] :
            List AnalyzeOutcome).length ∧
    ∀ (i : Nat)
      (h1 : i < (batchAnalyze [AnalyzeOutcome.ok " Charizard Base Set ",
        AnalyzeOutcome.fail "Request failed with status code 429"]).length)
      (h2 : i < ([AnalyzeOutcome.ok " Charizard Base Set ",
        AnalyzeOutcome.fail "Request failed with status code 429"] :
          List AnalyzeOutcome).length),
      (batchAnalyze [AnalyzeOutcome.ok " Charizard Base Set ",
          AnalyzeOutcome.fail "Request failed with status code 429"]).get ⟨i, h1⟩
        = batchStep i (([AnalyzeOutcome.ok " Charizard Base Set ",
            AnalyzeOutcome.fail "Request failed with status code 429"] :
              List AnalyzeOutcome).get ⟨i, h2⟩)) :=
  c8_batch_per_item [AnalyzeOutcome.ok " Charizard Base Set ",
    AnalyzeOutcome.fail "Request failed with status code 429"] (by decide)

/-- C9: if a fetch succeeds with `access_token` equal to the empty string,
that call returns the empty string, the empty token and a future expiry are
stored, yet EVERY subsequent call takes the fetch path (issues a new
outbound authentication request), because the line-47 truthiness test
requires the cached token to be non-empty. -/
theorem c9_empty_token_refetches (now L : Int) (st0 : CacheState)
    (f : FetchOutcome) (hmiss : cacheHit now st0 = false) :
    (getOAuthToken (FetchOutcome.ok (some "") (some L)) now st0).result
      = TokenResult.ret (some "") ∧
    (getOAuthToken (FetchOutcome.ok (some "") (some L)) now st0).state
      = ⟨some "", some (JsNum.num (now + (L - 300) * 1000))⟩ ∧
    ∀ n : Int,
      (getOAuthToken f n
        (getOAuthToken (FetchOutcome.ok (some "") (some L)) now st0).state).fetched
        = true := by
  have hst : (getOAuthToken (FetchOutcome.ok (some "") (some L)) now st0).state
      = ⟨some "", some (JsNum.num (now + (L - 300) * 1000))⟩ := by
    rw [getOAuthToken_of_miss _ hmiss]; rfl
  refine ⟨by rw [getOAuthToken_of_miss _ hmiss]; rfl, hst, fun n => ?_⟩
  rw [hst, getOAuthToken_of_miss f (by simp [cacheHit, strTruthy])]

/-- Witness for C9: an empty token fetched at `now = 0` with lifetime 3600 s;
the subsequent call happens at `n = 1000`, well before the stored expiry. -/
theorem c9_witness :
    ((getOAuthToken (FetchOutcome.ok (some "") (some 3600)) 0
        ⟨none, none⟩).result = TokenResult.ret (some "") ∧
    (getOAuthToken (FetchOutcome.ok (some "") (some 3600)) 0
        ⟨none, none⟩).state
      = ⟨some "", some (JsNum.num (0 + ((3600 : Int) - 300) * 1000))⟩ ∧
    ∀ n : Int,
      (getOAuthToken (FetchOutcome.err none) n
        (getOAuthToken (FetchOutcome.ok (some "") (some 3600)) 0
          ⟨none, none⟩).state).fetched = true) :=
  c9_empty_token_refetches 0 3600 ⟨none, none⟩ (FetchOutcome.err none)
    (by decide)

/-- C10: if a fetch succeeds with a lifetime of at most 300 seconds, the
token is still returned and stored, but the stored expiry is at or before
the fetch instant, so the entry is never served from the cache: every call
at any later instant issues a fresh outbound authentication request. -/
theorem c10_short_lifetime_refetches (now n L : Int) (tok : String)
    (st0 : CacheState) (f : FetchOutcome)
    (hmiss : cacheHit now st0 = false) (hL : L ≤ 300) (hle : now ≤ n) :
    (getOAuthToken (FetchOutcome.ok (some tok) (some L)) now st0).result
      = TokenResult.ret (some tok) ∧
    (getOAuthToken (FetchOutcome.ok (some tok) (some L)) now st0).state
      = ⟨some tok, some (JsNum.num (now + (L - 300) * 1000))⟩ ∧
    now + (L - 300) * 1000 ≤ now ∧
    (getOAuthToken f n
        (getOAuthToken (FetchOutcome.ok (some tok) (some L)) now st0).state).fetched
      = true := by
  have hst : (getOAuthToken (FetchOutcome.ok (some tok) (some L)) now st0).state
      = ⟨some tok, some (JsNum.num (now + (L - 300) * 1000))⟩ := by
    rw [getOAuthToken_of_miss _ hmiss]; rfl
  refine ⟨by rw [getOAuthToken_of_miss _ hmiss]; rfl, hst, by omega, ?_⟩
  have hmiss2 : cacheHit n
      (⟨some tok, some (JsNum.num (now + (L - 300) * 1000))⟩ : CacheState)
      = false :=
    cacheHit_false_of_not_after (by
      simp [expiryAfter, JsNum.isAfter]
      omega)
  rw [hst, getOAuthToken_of_miss f hmiss2]

/-- Witness for C10: lifetime 60 s fetched at `now = 1000`, next call at
`n = 2000`. -/
theorem c10_witness :
    ((getOAuthToken (FetchOutcome.ok (some "tokA") (some 60)) 1000
        ⟨none, none⟩).result = TokenResult.ret (some "tokA") ∧
    (getOAuthToken (FetchOutcome.ok (some "tokA") (some 60)) 1000
        ⟨none, none⟩).state
      = ⟨some "tokA", some (JsNum.num (1000 + ((60 : Int) - 300) * 1000))⟩ ∧
    (1000 : Int) + (60 - 300) * 1000 ≤ 1000 ∧
    (getOAuthToken (FetchOutcome.err none) 2000
        (getOAuthToken (FetchOutcome.ok (some "tokA") (some 60)) 1000
          ⟨none, none⟩).state).fetched = true) :=
  c10_short_lifetime_refetches 1000 2000 60 "tokA" ⟨none, none⟩
    (FetchOutcome.err none) (by decide) (by decide) (by decide)

end EbayBackend
